import Mathlib

/-!
Shallow embedding of the ticket normalization and chronological sectioning
pipeline of the Text-Summarizer repository.

The embedding follows the source files:
  * src/config.py        : constant declarations (column list, category
    whitelist, category-to-product mapping, story section names).
  * src/data_processor.py: filter_and_clean_data, get_data_summary.
  * src/story_generator.py: divide_tickets_into_sections.

A pandas DataFrame is modelled as a list of column names together with a
list of rows; a row is an association list from column name to cell value.
A cell is either null (NaN/NaT/None), a string, an integer, or a parsed
timestamp.  A parsed timestamp is represented as minutes since the civil
epoch 1970-01-01 00:00 (the Gregorian day-count algorithm below), so that
comparison of timestamps and day-span arithmetic agree with real calendar
time at minute resolution, which is the resolution of the configured date
format.
-/

namespace TicketPipeline

/-- A cell of the tabular batch: null (pandas NaN/NaT/None), a string, an
integer, or a parsed timestamp (minutes since the epoch). -/
inductive Cell where
  | null : Cell
  | str : String → Cell
  | int : Int → Cell
  | time : Int → Cell
  deriving DecidableEq, Repr

/-- A row: an association list from column name to cell value. -/
abbrev Row : Type := List (String × Cell)

/-- Cell of a row at a column (first entry with that name); a column absent
from the row reads as null (in pandas every row has exactly the frame's
columns, so for well-formed frames this lookup is always at a present
column). -/
def Row.get : Row → String → Cell
  | [], _ => Cell.null
  | p :: r, c => if p.1 = c then p.2 else Row.get r c

/-- Overwrite the value at a column, or append the column at the end if it
is absent — the behaviour of a pandas column assignment (column names are
unique in a frame, so replacing the first entry is replacing the entry). -/
def Row.set : Row → String → Cell → Row
  | [], c, v => [(c, v)]
  | p :: r, c, v => if p.1 = c then (c, v) :: r else p :: Row.set r c v

/-- A DataFrame: the ordered list of column names and the ordered rows. -/
structure DataFrame where
  cols : List String
  rows : List Row
  deriving DecidableEq, Repr

/-- pandas df.empty: true when either axis has length zero. -/
def DataFrame.isEmpty (df : DataFrame) : Bool :=
  df.rows.isEmpty || df.cols.isEmpty

/-- The empty frame produced by pd.DataFrame(). -/
def DataFrame.emptyDF : DataFrame := ⟨[], []⟩

/-! ### Constants from src/config.py -/

/-- SELECTED_COLUMNS from config.py. -/
def SELECTED_COLUMNS : List String :=
  ["ORDER_NUMBER", "ACCEPTANCE_TIME", "COMPLETION_TIME", "CUSTOMER_COMPLETION_TIME",
   "CUSTOMER_NUMBER", "ORDER_TYPE", "PROCESSING_STATUS", "SERVICE_CATEGORY",
   "ORDER_DESCRIPTION_1", "ORDER_DESCRIPTION_2", "COMPLETION_RESULT_KB", "NOTE_MAXIMUM"]

/-- VALID_CATEGORIES from config.py. -/
def VALID_CATEGORIES : List String :=
  ["HDW", "NET", "KAI", "KAV", "GIGA", "VOD", "KAD"]

/-- CATEGORY_MAPPING from config.py. -/
def CATEGORY_MAPPING : List (String × String) :=
  [("KAI", "Broadband"), ("NET", "Broadband"), ("KAV", "Voice"), ("KAD", "TV"),
   ("GIGA", "GIGA"), ("VOD", "VOD"), ("HDW", "Hardware")]

/-- STORY_SECTIONS from config.py. -/
def STORY_SECTIONS : List String :=
  ["Initial Issue", "Follow-ups", "Developments", "Later Incidents", "Recent Events"]

/-- The three timestamp columns converted in filter_and_clean_data. -/
def DATE_COLUMNS : List String :=
  ["ACCEPTANCE_TIME", "COMPLETION_TIME", "CUSTOMER_COMPLETION_TIME"]

/-- The four free-text columns filled in filter_and_clean_data. -/
def TEXT_COLUMNS : List String :=
  ["ORDER_DESCRIPTION_1", "ORDER_DESCRIPTION_2", "COMPLETION_RESULT_KB", "NOTE_MAXIMUM"]

/-- The sentinel used by the fillna call in filter_and_clean_data. -/
def NO_INFO : String := "No information available"

/-! ### Date parsing (pattern '%m/%d/%Y %H:%M' from config.DATE_FORMAT) -/

/-- Gregorian leap-year test. -/
def isLeapYear (y : Nat) : Bool :=
  y % 4 == 0 && (y % 100 != 0 || y % 400 == 0)

/-- Number of days of month m in year y. -/
def daysInMonth (y m : Nat) : Nat :=
  if m = 2 then (if isLeapYear y then 29 else 28)
  else if m = 4 ∨ m = 6 ∨ m = 9 ∨ m = 11 then 30
  else 31

/-- Days from 1970-01-01 of the civil date y-m-d (standard days-from-civil
day-count over the proleptic Gregorian calendar). -/
def daysFromCivil (y m d : Nat) : Int :=
  let yy : Int := if m ≤ 2 then (y : Int) - 1 else (y : Int)
  let era : Int := (if yy ≥ 0 then yy else yy - 399) / 400
  let yoe : Int := yy - era * 400
  let mp : Int := ((m : Int) + 9) % 12
  let doy : Int := (153 * mp + 2) / 5 + (d : Int) - 1
  let doe : Int := yoe * 365 + yoe / 4 - yoe / 100 + doy
  era * 146097 + doe - 719468

/-- Minutes since the epoch of a civil date-time. -/
def minutesSinceEpoch (y m d h mi : Nat) : Int :=
  daysFromCivil y m d * 1440 + (h : Int) * 60 + (mi : Int)

/-- A numeric field of at most the given width (strptime-style: one to
width digits). -/
def parseNumField (width : Nat) (s : String) : Option Nat :=
  if s.length = 0 ∨ width < s.length then none else s.toNat?

/-- Parse a string against the configured pattern '%m/%d/%Y %H:%M';
calendar-invalid or ill-formed strings yield none (pandas errors='coerce'
turns them into NaT). -/
def parseDate (s : String) : Option Int :=
  match s.splitOn " " with
  | [datePart, timePart] =>
    match datePart.splitOn "/", timePart.splitOn ":" with
    | [ms, ds, ys], [hs, mis] =>
      match parseNumField 2 ms, parseNumField 2 ds, parseNumField 4 ys,
            parseNumField 2 hs, parseNumField 2 mis with
      | some m, some d, some y, some h, some mi =>
        if 1 ≤ m ∧ m ≤ 12 ∧ 1 ≤ d ∧ d ≤ daysInMonth y m ∧ h ≤ 23 ∧ mi ≤ 59 ∧ 1 ≤ y then
          some (minutesSinceEpoch y m d h mi)
        else none
      | _, _, _, _, _ => none
    | _, _ => none
  | _ => none

/-- pd.to_datetime(cell, format=DATE_FORMAT, errors='coerce') on one cell:
strings parse or coerce to null, timestamps pass through, everything else
(null, numbers) coerces to null. -/
def parseCell : Cell → Cell
  | Cell.str s =>
    match parseDate s with
    | some t => Cell.time t
    | none => Cell.null
  | Cell.time t => Cell.time t
  | _ => Cell.null

/-! ### The normalization pipeline (filter_and_clean_data) -/

/-- The columns of SELECTED_COLUMNS actually present in the input
(data_processor.py line 43). -/
def availableCols (df : DataFrame) : List String :=
  SELECTED_COLUMNS.filter (fun c => df.cols.contains c)

/-- df[available]: keep exactly the available columns, in their order. -/
def projectRow (cs : List String) (r : Row) : Row :=
  cs.map (fun c => (c, r.get c))

/-- Series.isin(VALID_CATEGORIES) on one cell: exact, case-sensitive
equality with one of the seven tokens; null and non-strings never match. -/
def isValidCategory : Cell → Bool
  | Cell.str s => VALID_CATEGORIES.contains s
  | _ => false

/-- CATEGORY_MAPPING lookup. -/
def categoryToProduct (s : String) : Option String :=
  match CATEGORY_MAPPING.find? (fun p => p.1 == s) with
  | some p => some p.2
  | none => none

/-- Series.map(CATEGORY_MAPPING) on one SERVICE_CATEGORY cell: keys outside
the mapping (and non-strings) give NaN. -/
def productCell : Cell → Cell
  | Cell.str s =>
    match categoryToProduct s with
    | some p => Cell.str p
    | none => Cell.null
  | _ => Cell.null

/-- fillna('No information available') on one cell. -/
def fillCell (c : Cell) : Cell :=
  if c = Cell.null then Cell.str NO_INFO else c

/-- Apply a cell transformation at each listed column that is present,
left to right — the shape of the two per-column loops in
filter_and_clean_data (date conversion and text fill). -/
def mapCols (f : Cell → Cell) (present : List String) : List String → Row → Row
  | [], r => r
  | c :: rest, r =>
    mapCols f present rest
      (if present.contains c then r.set c (f (r.get c)) else r)

/-- Date conversion loop (data_processor.py lines 59-61). -/
def parseRow (present : List String) (r : Row) : Row :=
  mapCols parseCell present DATE_COLUMNS r

/-- Text fill loop (data_processor.py lines 70-74). -/
def fillRow (present : List String) (r : Row) : Row :=
  mapCols fillCell present TEXT_COLUMNS r

/-- PRODUCT derivation (data_processor.py line 64). -/
def addProductRow (r : Row) : Row :=
  r.set "PRODUCT" (productCell (r.get "SERVICE_CATEGORY"))

/-- Sort key: the ACCEPTANCE_TIME timestamp of a row, none when the cell is
not a timestamp (NaT). -/
def rowKey (r : Row) : Option Int :=
  match r.get "ACCEPTANCE_TIME" with
  | Cell.time t => some t
  | _ => none

/-- Numeric sort key of a row known to carry a timestamp. -/
def keyVal (r : Row) : Int :=
  (rowKey r).getD 0

/-- Stable insertion of a row into a key-sorted list: a row is placed
before the first row of strictly larger or equal-or-larger key, keeping
equal keys in arrival order. -/
def insertByKey (a : Row) : List Row → List Row
  | [] => [a]
  | b :: l => if keyVal a ≤ keyVal b then a :: b :: l else b :: insertByKey a l

/-- Stable insertion sort by key. -/
def insertionSortByKey : List Row → List Row
  | [] => []
  | a :: l => insertByKey a (insertionSortByKey l)

/-- df.sort_values('ACCEPTANCE_TIME') with the default na_position='last':
rows with a timestamp ordered ascending by it, rows with NaT placed after
them.  pandas' default sort kind is quicksort, which leaves the relative
order of rows with equal keys (and among the NaT rows) unspecified; the
embedding realizes the sort with a stable insertion sort, one arbitrary
choice among the tie orders the pandas contract permits.  No theorem in
this file depends on the tie order chosen. -/
def sortRows (rows : List Row) : List Row :=
  insertionSortByKey (rows.filter (fun r => (rowKey r).isSome)) ++
    rows.filter (fun r => (rowKey r).isNone)

/-- Rows after column projection and the category filter
(data_processor.py lines 49-52). -/
def filteredRows (df : DataFrame) : List Row :=
  (df.rows.map (projectRow (availableCols df))).filter
    (fun r => isValidCategory (r.get "SERVICE_CATEGORY"))

/-- Rows after date conversion and PRODUCT derivation, before the sort
(data_processor.py lines 59-64). -/
def preSortRows (df : DataFrame) : List Row :=
  (filteredRows df).map (fun r => addProductRow (parseRow (availableCols df) r))

/-- Rows after the conditional sort (data_processor.py lines 66-68). -/
def sortedRows (df : DataFrame) : List Row :=
  if (availableCols df).contains "ACCEPTANCE_TIME" then sortRows (preSortRows df)
  else preSortRows df

/-- Rows after the text fill (data_processor.py lines 70-74). -/
def finalRows (df : DataFrame) : List Row :=
  (sortedRows df).map (fillRow (availableCols df ++ ["PRODUCT"]))

/-- filter_and_clean_data from src/data_processor.py: project to the
available selected columns, bail out to an empty frame when the frame is
empty or SERVICE_CATEGORY is missing, filter by the category whitelist,
short-circuit when nothing survives, convert dates, derive PRODUCT, sort
by ACCEPTANCE_TIME when present, fill the text columns. -/
def filter_and_clean_data (df : DataFrame) : DataFrame :=
  if df.isEmpty = true then DataFrame.emptyDF
  else if (availableCols df).contains "SERVICE_CATEGORY" = false then DataFrame.emptyDF
  else if (filteredRows df).isEmpty = true then ⟨availableCols df, []⟩
  else ⟨availableCols df ++ ["PRODUCT"], finalRows df⟩

/-! ### The sectioning engine (divide_tickets_into_sections) -/

/-- df.iloc[a:b] (0 ≤ a ≤ b clamped to the length; an empty slice when
b ≤ a). -/
def sliceDF (df : DataFrame) (a b : Nat) : DataFrame :=
  ⟨df.cols, (df.rows.drop a).take (b - a)⟩

/-- divide_tickets_into_sections from src/story_generator.py: an empty or
None frame gives five empty frames; otherwise section i of the five named
sections is the slice [i*size, (i+1)*size) for i < 4 and [4*size, n) for
the last section, with size = max 1 (n / 5). -/
def divide_tickets_into_sections (df : DataFrame) : List (String × DataFrame) :=
  if df.isEmpty = true then STORY_SECTIONS.map (fun s => (s, DataFrame.emptyDF))
  else
    let n := df.rows.length
    let size := max 1 (n / 5)
    STORY_SECTIONS.enum.map (fun p =>
      (p.2,
       if p.1 = STORY_SECTIONS.length - 1 then ⟨df.cols, df.rows.drop (p.1 * size)⟩
       else sliceDF df (p.1 * size) ((p.1 + 1) * size)))

/-- The five section row-counts, in section order. -/
def sectionLengths (df : DataFrame) : List Nat :=
  (divide_tickets_into_sections df).map (fun p => p.2.rows.length)

/-! ### The aggregate summary (get_data_summary) -/

/-- The summary record returned by get_data_summary. -/
structure Summary where
  total_tickets : Nat
  unique_customers : Nat
  date_range_days : Int
  product_counts : List (Cell × Nat)
  category_counts : List (Cell × Nat)
  deriving DecidableEq, Repr

/-- Series.value_counts().to_dict(): each distinct non-null value with its
multiplicity.  The embedding lists the values in first-appearance order;
value_counts orders them by descending count, but the result is consumed
as a dictionary, whose content does not depend on that order. -/
def valueCounts (cells : List Cell) : List (Cell × Nat) :=
  let nonNull := cells.filter (fun c => c ≠ Cell.null)
  nonNull.dedup.map (fun v => (v, nonNull.count v))

/-- The non-null timestamps of the ACCEPTANCE_TIME column
(valid_dates = df['ACCEPTANCE_TIME'].dropna(), for a column of
timestamp-or-null cells as produced by the normalization pipeline). -/
def validTimes (df : DataFrame) : List Int :=
  if df.cols.contains "ACCEPTANCE_TIME" then
    df.rows.filterMap (fun r =>
      match r.get "ACCEPTANCE_TIME" with
      | Cell.time t => some t
      | _ => none)
  else []

/-- Greatest element of t :: ts. -/
def listMax (t : Int) (ts : List Int) : Int := ts.foldl max t

/-- Least element of t :: ts. -/
def listMin (t : Int) (ts : List Int) : Int := ts.foldl min t

/-- Distinct non-null values of a column (Series.nunique()). -/
def nuniqueCells (cells : List Cell) : Nat :=
  ((cells.filter (fun c => c ≠ Cell.null)).dedup).length

/-- get_data_summary from src/data_processor.py.  The day span is
(max - min).days of the non-null ACCEPTANCE_TIME values, i.e. the floor of
the minute difference over 1440 (whole days); 0 when the column is absent
or has no non-null value. -/
def get_data_summary (df : DataFrame) : Summary :=
  if df.isEmpty then ⟨0, 0, 0, [], []⟩
  else
    let drd : Int :=
      match validTimes df with
      | [] => 0
      | t :: ts => (listMax t ts - listMin t ts) / 1440
    let pc : List (Cell × Nat) :=
      if df.cols.contains "PRODUCT" then
        valueCounts (df.rows.map (fun r => r.get "PRODUCT"))
      else []
    let cc : List (Cell × Nat) :=
      if df.cols.contains "SERVICE_CATEGORY" then
        valueCounts (df.rows.map (fun r => r.get "SERVICE_CATEGORY"))
      else []
    let uc : Nat :=
      if df.cols.contains "CUSTOMER_NUMBER" then
        nuniqueCells (df.rows.map (fun r => r.get "CUSTOMER_NUMBER"))
      else 0
    ⟨df.rows.length, uc, drd, pc, cc⟩

/-! ### Auxiliary definitions for the claims -/

/-- Decidable domain marker for C8: a cell is a parsed timestamp or null
(the shape of the ACCEPTANCE_TIME column after normalization). -/
def isTimeOrNull : Cell → Bool
  | Cell.null => true
  | Cell.time _ => true
  | _ => false

/-- Day-span stated from the claim's words: 0 when fewer than two dated
rows, otherwise the whole-day span between the earliest and latest time. -/
def daySpanSpec : List Int → Int
  | [] => 0
  | [_] => 0
  | t :: rest => (listMax t rest - listMin t rest) / 1440

/-! ### Concrete frames used as witness and counterexample inputs -/

/-- A seven-row batch with one ticket per whitelist category. -/
def dfW7 : DataFrame :=
  ⟨["SERVICE_CATEGORY"],
   [[("SERVICE_CATEGORY", Cell.str "NET")], [("SERVICE_CATEGORY", Cell.str "KAI")],
    [("SERVICE_CATEGORY", Cell.str "KAV")], [("SERVICE_CATEGORY", Cell.str "HDW")],
    [("SERVICE_CATEGORY", Cell.str "VOD")], [("SERVICE_CATEGORY", Cell.str "GIGA")],
    [("SERVICE_CATEGORY", Cell.str "KAD")]]⟩

/-- A three-row batch (length positive, not a multiple of 5, below 5). -/
def dfW3 : DataFrame :=
  ⟨["SERVICE_CATEGORY"],
   [[("SERVICE_CATEGORY", Cell.str "NET")], [("SERVICE_CATEGORY", Cell.str "KAI")],
    [("SERVICE_CATEGORY", Cell.str "KAV")]]⟩

/-- A 23-row batch. -/
def dfW23 : DataFrame :=
  ⟨["SERVICE_CATEGORY"], List.replicate 23 [("SERVICE_CATEGORY", Cell.str "NET")]⟩

/-- A one-row batch with no SERVICE_CATEGORY column. -/
def dfW_noSC : DataFrame := ⟨["ORDER_NUMBER"], [[("ORDER_NUMBER", Cell.int 1)]]⟩

/-- A four-row batch with one exact whitelist token and three near-misses
(lower case, leading blank, null). -/
def dfW_mix : DataFrame :=
  ⟨["SERVICE_CATEGORY", "NOTE_MAXIMUM"],
   [[("SERVICE_CATEGORY", Cell.str "HDW"), ("NOTE_MAXIMUM", Cell.null)],
    [("SERVICE_CATEGORY", Cell.str "hdw"), ("NOTE_MAXIMUM", Cell.str "x")],
    [("SERVICE_CATEGORY", Cell.str " HDW"), ("NOTE_MAXIMUM", Cell.str "y")],
    [("SERVICE_CATEGORY", Cell.null), ("NOTE_MAXIMUM", Cell.str "z")]]⟩

/-- A one-row batch whose NOTE_MAXIMUM is the empty string. -/
def dfW_empty_note : DataFrame :=
  ⟨["SERVICE_CATEGORY", "NOTE_MAXIMUM"],
   [[("SERVICE_CATEGORY", Cell.str "NET"), ("NOTE_MAXIMUM", Cell.str "")]]⟩

/-- A three-row batch of timestamp-or-null acceptance times two days
apart. -/
def dfW_dates : DataFrame :=
  ⟨["ACCEPTANCE_TIME"],
   [[("ACCEPTANCE_TIME", Cell.time 0)],
    [("ACCEPTANCE_TIME", Cell.null)],
    [("ACCEPTANCE_TIME", Cell.time 2880)]]⟩

/-- A four-row batch with two equal acceptance times (minute 5 of the
epoch), one later time and one unparsable time. -/
def dfW_sort : DataFrame :=
  ⟨["ACCEPTANCE_TIME", "SERVICE_CATEGORY", "ORDER_NUMBER"],
   [[("ACCEPTANCE_TIME", Cell.str "01/01/1970 00:07"),
     ("SERVICE_CATEGORY", Cell.str "NET"), ("ORDER_NUMBER", Cell.int 1)],
    [("ACCEPTANCE_TIME", Cell.str "01/01/1970 00:05"),
     ("SERVICE_CATEGORY", Cell.str "KAV"), ("ORDER_NUMBER", Cell.int 2)],
    [("ACCEPTANCE_TIME", Cell.str "nope"),
     ("SERVICE_CATEGORY", Cell.str "HDW"), ("ORDER_NUMBER", Cell.int 3)],
    [("ACCEPTANCE_TIME", Cell.str "01/01/1970 00:05"),
     ("SERVICE_CATEGORY", Cell.str "KAD"), ("ORDER_NUMBER", Cell.int 4)]]⟩

/-! ### Lemmas about row access and update -/

theorem get_projectRow (cs : List String) (r : Row) (c : String) :
    Row.get (projectRow cs r) c = if c ∈ cs then r.get c else Cell.null := by
  induction cs with
  | nil => simp [projectRow, Row.get]
  | cons c1 rest ih =>
    by_cases h : c1 = c
    · subst h
      simp [projectRow, Row.get]
    · have hme : projectRow (c1 :: rest) r = (c1, r.get c1) :: projectRow rest r := rfl
      rw [hme]
      simp only [Row.get, h, if_false]
      rw [ih]
      simp [Ne.symm h]

theorem get_set_self (r : Row) (c : String) (v : Cell) :
    Row.get (Row.set r c v) c = v := by
  induction r with
  | nil => simp [Row.set, Row.get]
  | cons p r ih =>
    by_cases h : p.1 = c
    · simp [Row.set, Row.get, h]
    · simp [Row.set, Row.get, h, ih]

theorem get_set_ne (r : Row) (c c' : String) (v : Cell) (h : c' ≠ c) :
    Row.get (Row.set r c v) c' = Row.get r c' := by
  induction r with
  | nil => simp [Row.set, Row.get, Ne.symm h]
  | cons p r ih =>
    by_cases hp : p.1 = c
    · simp [Row.set, Row.get, hp, Ne.symm h, h]
    · by_cases hp' : p.1 = c'
      · simp [Row.set, Row.get, hp, hp', h]
      · simp [Row.set, Row.get, hp, hp', ih]

theorem get_mapCols_notMem (f : Cell → Cell) (present cs : List String) (r : Row)
    (c : String) (hc : c ∉ cs) :
    Row.get (mapCols f present cs r) c = Row.get r c := by
  induction cs generalizing r with
  | nil => rfl
  | cons c1 rest ih =>
    have hc1 : c ≠ c1 := fun h => hc (by simp [h])
    have hrest : c ∉ rest := fun h => hc (by simp [h])
    simp only [mapCols]
    rw [ih _ hrest]
    cases hp : present.contains c1 with
    | true => simp only [hp, if_true, get_set_ne _ _ _ _ hc1]
    | false => simp only [hp, Bool.false_eq_true, if_false]

theorem get_mapCols_mem (f : Cell → Cell) (present cs : List String) (r : Row)
    (c : String) (hnd : cs.Nodup) (hc : c ∈ cs) :
    Row.get (mapCols f present cs r) c
      = if present.contains c then f (Row.get r c) else Row.get r c := by
  induction cs generalizing r with
  | nil => cases hc
  | cons c1 rest ih =>
    rcases List.mem_cons.mp hc with h1 | h2
    · subst h1
      have hnotin : c ∉ rest := (List.nodup_cons.mp hnd).1
      simp only [mapCols]
      rw [get_mapCols_notMem _ _ _ _ _ hnotin]
      cases hp : present.contains c with
      | true => simp only [hp, if_true, get_set_self]
      | false => simp only [hp, Bool.false_eq_true, if_false]
    · have hne : c ≠ c1 := by
        rintro rfl
        exact (List.nodup_cons.mp hnd).1 h2
      have hndr : rest.Nodup := (List.nodup_cons.mp hnd).2
      simp only [mapCols]
      rw [ih _ hndr h2]
      cases hp : present.contains c1 with
      | true => simp only [hp, if_true, get_set_ne _ _ _ _ hne]
      | false => simp only [hp, Bool.false_eq_true, if_false]

/-! ### Lemmas about the stable sort -/

theorem length_insertByKey (a : Row) (l : List Row) :
    (insertByKey a l).length = l.length + 1 := by
  induction l with
  | nil => rfl
  | cons b l ih =>
    by_cases h : keyVal a ≤ keyVal b
    · simp [insertByKey, h]
    · simp [insertByKey, h, ih]

theorem length_insertionSortByKey (l : List Row) :
    (insertionSortByKey l).length = l.length := by
  induction l with
  | nil => rfl
  | cons a l ih => simp [insertionSortByKey, length_insertByKey, ih]

theorem length_sortRows (l : List Row) : (sortRows l).length = l.length := by
  have hcongr : l.filter (fun x => !(rowKey x).isSome)
      = l.filter (fun r => (rowKey r).isNone) :=
    List.filter_congr (fun r _ => Option.bnot_isSome (rowKey r))
  have h : l.length = (l.filter (fun r => (rowKey r).isSome)).length
      + (l.filter (fun x => !(rowKey x).isSome)).length :=
    List.length_eq_length_filter_add _
  rw [hcongr] at h
  simp only [sortRows, List.length_append, length_insertionSortByKey]
  omega

theorem mem_insertByKey {x a : Row} {l : List Row} (h : x ∈ insertByKey a l) :
    x = a ∨ x ∈ l := by
  induction l with
  | nil =>
    simp only [insertByKey, List.mem_singleton] at h
    exact Or.inl h
  | cons b l ih =>
    by_cases hab : keyVal a ≤ keyVal b
    · simpa [insertByKey, hab] using h
    · simp only [insertByKey, hab, if_false] at h
      rcases List.mem_cons.mp h with h1 | h2
      · exact Or.inr (by simp [h1])
      · rcases ih h2 with h3 | h4
        · exact Or.inl h3
        · exact Or.inr (by simp [h4])

theorem mem_insertionSortByKey {x : Row} {l : List Row}
    (h : x ∈ insertionSortByKey l) : x ∈ l := by
  induction l with
  | nil => exact absurd h (by simp [insertionSortByKey])
  | cons a l ih =>
    simp only [insertionSortByKey] at h
    rcases mem_insertByKey h with h1 | h2
    · simp [h1]
    · simp [ih h2]

theorem mem_sortRows {x : Row} {l : List Row} (h : x ∈ sortRows l) : x ∈ l := by
  rcases List.mem_append.mp h with h1 | h2
  · exact List.mem_of_mem_filter (mem_insertionSortByKey h1)
  · exact List.mem_of_mem_filter h2

/-! ### Lemmas about the pipeline stages -/

theorem mem_availableCols (df : DataFrame) (c : String) :
    c ∈ availableCols df ↔ c ∈ SELECTED_COLUMNS ∧ c ∈ df.cols := by
  simp [availableCols]

theorem isValidCategory_iff (c : Cell) :
    isValidCategory c = true ↔ ∃ s, c = Cell.str s ∧ s ∈ VALID_CATEGORIES := by
  cases c <;> simp [isValidCategory]

theorem categoryToProduct_total (s : String) (hs : s ∈ VALID_CATEGORIES) :
    ∃ p, categoryToProduct s = some p := by
  simp only [VALID_CATEGORIES, List.mem_cons, List.mem_singleton,
    List.not_mem_nil, or_false] at hs
  rcases hs with rfl | rfl | rfl | rfl | rfl | rfl | rfl <;> exact ⟨_, rfl⟩

theorem fillCell_ne_null (x : Cell) : fillCell x ≠ Cell.null := by
  by_cases h : x = Cell.null
  · simp [fillCell, h, NO_INFO]
  · simp [fillCell, h]

theorem get_parseRow_notDate (present : List String) (r : Row) (c : String)
    (h : c ∉ DATE_COLUMNS) :
    Row.get (parseRow present r) c = Row.get r c :=
  get_mapCols_notMem _ _ _ _ _ h

theorem get_fillRow_notText (present : List String) (r : Row) (c : String)
    (h : c ∉ TEXT_COLUMNS) :
    Row.get (fillRow present r) c = Row.get r c :=
  get_mapCols_notMem _ _ _ _ _ h

theorem rowKey_fillRow (present : List String) (r : Row) :
    rowKey (fillRow present r) = rowKey r := by
  unfold rowKey
  rw [get_fillRow_notText present r _ (by decide)]

theorem get_addProductRow_SC (r : Row) :
    Row.get (addProductRow r) "SERVICE_CATEGORY" = Row.get r "SERVICE_CATEGORY" :=
  get_set_ne _ _ _ _ (by decide)

theorem get_addProductRow_AT (r : Row) :
    Row.get (addProductRow r) "ACCEPTANCE_TIME" = Row.get r "ACCEPTANCE_TIME" :=
  get_set_ne _ _ _ _ (by decide)

theorem get_addProductRow_P (r : Row) :
    Row.get (addProductRow r) "PRODUCT" = productCell (Row.get r "SERVICE_CATEGORY") :=
  get_set_self _ _ _

theorem mem_sortedRows {df : DataFrame} {r : Row} (h : r ∈ sortedRows df) :
    r ∈ preSortRows df := by
  unfold sortedRows at h
  by_cases hc : (availableCols df).contains "ACCEPTANCE_TIME"
  · rw [if_pos hc] at h
    exact mem_sortRows h
  · rwa [if_neg hc] at h

theorem filteredRows_nil_of_rows_nil {df : DataFrame} (h : df.rows = []) :
    filteredRows df = [] := by
  simp [filteredRows, h]

theorem filteredRows_nil_of_no_SC {df : DataFrame}
    (h : "SERVICE_CATEGORY" ∉ availableCols df) : filteredRows df = [] := by
  unfold filteredRows
  rw [List.filter_eq_nil_iff]
  intro r hr
  rcases List.mem_map.mp hr with ⟨r0, _, rfl⟩
  rw [get_projectRow, if_neg h]
  simp [isValidCategory]

theorem preSortRows_nil {df : DataFrame} (h : filteredRows df = []) :
    preSortRows df = [] := by
  simp [preSortRows, h]

/-- Branch analysis of filter_and_clean_data: either the result carries no
rows (the guard branches), or it is the fully processed frame. -/
theorem filter_and_clean_cases (df : DataFrame) :
    ((filter_and_clean_data df).rows = [] ∧ filteredRows df = []) ∨
    ((filter_and_clean_data df).rows = finalRows df ∧
     (filter_and_clean_data df).cols = availableCols df ++ ["PRODUCT"] ∧
     df.isEmpty = false ∧
     "SERVICE_CATEGORY" ∈ availableCols df ∧
     filteredRows df ≠ []) := by
  unfold filter_and_clean_data
  by_cases h1 : df.isEmpty = true
  · rw [if_pos h1]
    left
    refine ⟨rfl, ?_⟩
    have h1' : df.rows = [] ∨ df.cols = [] := by simpa [DataFrame.isEmpty] using h1
    rcases h1' with h | h
    · exact filteredRows_nil_of_rows_nil h
    · apply filteredRows_nil_of_no_SC
      intro hm
      have hmem := (mem_availableCols df _).mp hm
      rw [h] at hmem
      exact absurd hmem.2 (List.not_mem_nil _)
  · rw [if_neg h1]
    by_cases h2 : (availableCols df).contains "SERVICE_CATEGORY" = false
    · rw [if_pos h2]
      left
      refine ⟨rfl, filteredRows_nil_of_no_SC ?_⟩
      intro hm
      have hcon : (availableCols df).contains "SERVICE_CATEGORY" = true := by simpa using hm
      rw [hcon] at h2
      cases h2
    · rw [if_neg h2]
      have h2' : "SERVICE_CATEGORY" ∈ availableCols df := by
        have hcon : (availableCols df).contains "SERVICE_CATEGORY" = true := by
          cases hb : (availableCols df).contains "SERVICE_CATEGORY" with
          | true => rfl
          | false => exact absurd hb h2
        simpa using hcon
      by_cases h3 : (filteredRows df).isEmpty = true
      · rw [if_pos h3]
        left
        exact ⟨rfl, List.isEmpty_iff.mp h3⟩
      · rw [if_neg h3]
        right
        have h1' : df.isEmpty = false := Bool.not_eq_true df.isEmpty ▸ h1
        refine ⟨rfl, rfl, h1', h2', ?_⟩
        intro hn
        exact h3 (by simp [hn])

/-- Category and product invariant of every row the pipeline returns. -/
theorem out_rows_spec {df : DataFrame} {r : Row}
    (hr : r ∈ (filter_and_clean_data df).rows) :
    ∃ s p, s ∈ VALID_CATEGORIES ∧ categoryToProduct s = some p ∧
      Row.get r "SERVICE_CATEGORY" = Cell.str s ∧
      Row.get r "PRODUCT" = Cell.str p := by
  rcases filter_and_clean_cases df with ⟨hnil, _⟩ | ⟨hrows, _, _, _, _⟩
  · rw [hnil] at hr
    exact absurd hr (List.not_mem_nil r)
  · rw [hrows] at hr
    unfold finalRows at hr
    rcases List.mem_map.mp hr with ⟨r1, hr1, rfl⟩
    have hr1p := mem_sortedRows hr1
    unfold preSortRows at hr1p
    rcases List.mem_map.mp hr1p with ⟨r2, hr2, rfl⟩
    have hv : isValidCategory (Row.get r2 "SERVICE_CATEGORY") = true :=
      (List.mem_filter.mp hr2).2
    rcases (isValidCategory_iff _).mp hv with ⟨s, hs, hsv⟩
    rcases categoryToProduct_total s hsv with ⟨p, hp⟩
    refine ⟨s, p, hsv, hp, ?_, ?_⟩
    · rw [get_fillRow_notText _ _ _ (by decide), get_addProductRow_SC,
        get_parseRow_notDate _ _ _ (by decide), hs]
    · rw [get_fillRow_notText _ _ _ (by decide), get_addProductRow_P,
        get_parseRow_notDate _ _ _ (by decide), hs]
      simp [productCell, hp]

/-! ### Lemmas about the sectioning engine -/

theorem divide_rows_nonempty (df : DataFrame) (h : df.isEmpty = false) :
    (divide_tickets_into_sections df).map (fun p => p.2.rows) =
      [df.rows.take (max 1 (df.rows.length / 5)),
       (df.rows.drop (max 1 (df.rows.length / 5))).take (max 1 (df.rows.length / 5)),
       (df.rows.drop (2 * max 1 (df.rows.length / 5))).take (max 1 (df.rows.length / 5)),
       (df.rows.drop (3 * max 1 (df.rows.length / 5))).take (max 1 (df.rows.length / 5)),
       df.rows.drop (4 * max 1 (df.rows.length / 5))] := by
  unfold divide_tickets_into_sections
  rw [if_neg (by rw [h]; exact Bool.false_ne_true)]
  show [(df.rows.drop (0 * max 1 (df.rows.length / 5))).take
          (1 * max 1 (df.rows.length / 5) - 0 * max 1 (df.rows.length / 5)),
        (df.rows.drop (1 * max 1 (df.rows.length / 5))).take
          (2 * max 1 (df.rows.length / 5) - 1 * max 1 (df.rows.length / 5)),
        (df.rows.drop (2 * max 1 (df.rows.length / 5))).take
          (3 * max 1 (df.rows.length / 5) - 2 * max 1 (df.rows.length / 5)),
        (df.rows.drop (3 * max 1 (df.rows.length / 5))).take
          (4 * max 1 (df.rows.length / 5) - 3 * max 1 (df.rows.length / 5)),
        df.rows.drop (4 * max 1 (df.rows.length / 5))] = _
  generalize max 1 (df.rows.length / 5) = s
  have e0 : 0 * s = 0 := by omega
  have e1 : 1 * s = s := by omega
  have e10 : 1 * s - 0 * s = s := by omega
  have e21 : 2 * s - 1 * s = s := by omega
  have e32 : 3 * s - 2 * s = s := by omega
  have e43 : 4 * s - 3 * s = s := by omega
  rw [e10, e21, e32, e43, e0, e1, List.drop_zero]

theorem sectionLengths_nonempty (df : DataFrame) (h : df.isEmpty = false) :
    sectionLengths df =
      [min (max 1 (df.rows.length / 5)) df.rows.length,
       min (max 1 (df.rows.length / 5)) (df.rows.length - max 1 (df.rows.length / 5)),
       min (max 1 (df.rows.length / 5)) (df.rows.length - 2 * max 1 (df.rows.length / 5)),
       min (max 1 (df.rows.length / 5)) (df.rows.length - 3 * max 1 (df.rows.length / 5)),
       df.rows.length - 4 * max 1 (df.rows.length / 5)] := by
  have hcomp : (fun p : String × DataFrame => p.2.rows.length)
      = List.length ∘ (fun p : String × DataFrame => p.2.rows) := rfl
  unfold sectionLengths
  rw [hcomp, ← List.map_map, divide_rows_nonempty df h]
  simp [List.length_take, List.length_drop]

theorem five_slices {α : Type} (l : List α) (s : Nat) :
    l.take s ++ ((l.drop s).take s ++ ((l.drop (2 * s)).take s ++
      ((l.drop (3 * s)).take s ++ l.drop (4 * s)))) = l := by
  have h1 : (l.drop (3 * s)).take s ++ l.drop (4 * s) = l.drop (3 * s) := by
    have he : l.drop (4 * s) = (l.drop (3 * s)).drop s := by
      rw [List.drop_drop]
      congr 1
      omega
    rw [he, List.take_append_drop]
  have h2 : (l.drop (2 * s)).take s ++ l.drop (3 * s) = l.drop (2 * s) := by
    have he : l.drop (3 * s) = (l.drop (2 * s)).drop s := by
      rw [List.drop_drop]
      congr 1
      omega
    rw [he, List.take_append_drop]
  have h3 : (l.drop s).take s ++ l.drop (2 * s) = l.drop s := by
    have he : l.drop (2 * s) = (l.drop s).drop s := by
      rw [List.drop_drop]
      congr 1
      omega
    rw [he, List.take_append_drop]
  rw [h1, h2, h3, List.take_append_drop]

/-! ### Claim theorems -/

/-- C1: divide_tickets_into_sections returns exactly the five fixed
sections in their fixed order, and concatenating the five sections' rows
in that order reproduces the input batch exactly — same rows, same
relative order, no duplication, no loss — for every length including 0
(a frame with no columns carries no rows). -/
theorem C1_sectioning_concat (df : DataFrame) (hWF : df.cols = [] → df.rows = []) :
    (divide_tickets_into_sections df).map Prod.fst = STORY_SECTIONS ∧
    ((divide_tickets_into_sections df).map (fun p => p.2.rows)).flatten = df.rows := by
  by_cases h : df.isEmpty = true
  · have hrows : df.rows = [] := by
      have h' : df.rows = [] ∨ df.cols = [] := by simpa [DataFrame.isEmpty] using h
      rcases h' with h' | h'
      · exact h'
      · exact hWF h'
    constructor
    · unfold divide_tickets_into_sections
      rw [if_pos h]
      rfl
    · unfold divide_tickets_into_sections
      rw [if_pos h, hrows]
      rfl
  · have hf : df.isEmpty = false := Bool.not_eq_true df.isEmpty ▸ h
    constructor
    · unfold divide_tickets_into_sections
      rw [if_neg (by rw [hf]; exact Bool.false_ne_true)]
      rfl
    · rw [divide_rows_nonempty df hf]
      simp only [List.flatten_cons, List.flatten_nil, List.append_nil]
      exact five_slices df.rows (max 1 (df.rows.length / 5))

/-- C1 witness: the sectioning identity evaluated on a concrete
seven-ticket batch. -/
theorem C1_witness :
    (divide_tickets_into_sections dfW7).map Prod.fst = STORY_SECTIONS ∧
    ((divide_tickets_into_sections dfW7).map (fun p => p.2.rows)).flatten = dfW7.rows :=
  C1_sectioning_concat dfW7 (by intro h; cases h)

/-- C4 counterexample: a batch of length 3 has positive length not a
multiple of 5, but its section sizes are [1, 1, 1, 0, 0] — the fifth
section is not strictly larger than the fourth, refuting the claim as
stated for lengths below 5. -/
theorem C4_counterexample :
    dfW3.rows.length = 3 ∧ dfW3.rows.length % 5 ≠ 0 ∧
    sectionLengths dfW3 = [1, 1, 1, 0, 0] ∧
    ¬ (sectionLengths dfW3).getD 3 0 < (sectionLengths dfW3).getD 4 0 := by
  refine ⟨rfl, by decide, by decide, by decide⟩

/-- C4 (amended): for every batch whose length is at least 5 and not a
multiple of 5, the fifth section is strictly larger than each of the other
four (for a batch of length 23 the sizes are [4, 4, 4, 4, 7], checked in
the witness). -/
theorem C4_last_section_largest (df : DataFrame) (h5 : 5 ≤ df.rows.length)
    (hm : df.rows.length % 5 ≠ 0) (hc : df.cols ≠ []) :
    (sectionLengths df).getD 0 0 < (sectionLengths df).getD 4 0 ∧
    (sectionLengths df).getD 1 0 < (sectionLengths df).getD 4 0 ∧
    (sectionLengths df).getD 2 0 < (sectionLengths df).getD 4 0 ∧
    (sectionLengths df).getD 3 0 < (sectionLengths df).getD 4 0 := by
  have hrows : df.rows ≠ [] := by
    intro hn
    rw [hn] at h5
    simp at h5
  have hf : df.isEmpty = false := by
    simp [DataFrame.isEmpty, hrows, hc]
  rw [sectionLengths_nonempty df hf]
  have hmax : max 1 (df.rows.length / 5) = df.rows.length / 5 :=
    Nat.max_eq_right (by omega)
  rw [hmax]
  simp only [List.getD_cons_zero, List.getD_cons_succ]
  have hq1 : min (df.rows.length / 5) df.rows.length = df.rows.length / 5 :=
    Nat.min_eq_left (by omega)
  have hq2 : min (df.rows.length / 5) (df.rows.length - df.rows.length / 5)
      = df.rows.length / 5 := Nat.min_eq_left (by omega)
  have hq3 : min (df.rows.length / 5) (df.rows.length - 2 * (df.rows.length / 5))
      = df.rows.length / 5 := Nat.min_eq_left (by omega)
  have hq4 : min (df.rows.length / 5) (df.rows.length - 3 * (df.rows.length / 5))
      = df.rows.length / 5 := Nat.min_eq_left (by omega)
  rw [hq1, hq2, hq3, hq4]
  refine ⟨by omega, by omega, by omega, by omega⟩

/-- C4 witness: the amended statement and the [4, 4, 4, 4, 7] sizes on a
concrete batch of length 23. -/
theorem C4_witness :
    (5 ≤ dfW23.rows.length ∧ dfW23.rows.length % 5 ≠ 0 ∧ dfW23.cols ≠ []) ∧
    sectionLengths dfW23 = [4, 4, 4, 4, 7] ∧
    ((sectionLengths dfW23).getD 0 0 < (sectionLengths dfW23).getD 4 0 ∧
     (sectionLengths dfW23).getD 1 0 < (sectionLengths dfW23).getD 4 0 ∧
     (sectionLengths dfW23).getD 2 0 < (sectionLengths dfW23).getD 4 0 ∧
     (sectionLengths dfW23).getD 3 0 < (sectionLengths dfW23).getD 4 0) :=
  ⟨⟨by decide, by decide, by decide⟩, by decide,
   C4_last_section_largest dfW23 (by decide) (by decide) (by decide)⟩

/-- C7: a raw batch lacking the SERVICE_CATEGORY column normalizes to the
empty frame, regardless of all other content; the embedded pipeline is a
total function, so no exception reaches the caller. -/
theorem C7_missing_category_empty (df : DataFrame)
    (h : "SERVICE_CATEGORY" ∉ df.cols) :
    filter_and_clean_data df = DataFrame.emptyDF := by
  unfold filter_and_clean_data
  by_cases h1 : df.isEmpty = true
  · rw [if_pos h1]
  · rw [if_neg h1]
    have hc : (availableCols df).contains "SERVICE_CATEGORY" = false := by
      have hnm : "SERVICE_CATEGORY" ∉ availableCols df := by
        intro hm
        exact h ((mem_availableCols df _).mp hm).2
      simp [hnm]
    rw [if_pos hc]

/-- C7 witness: a concrete one-row frame without SERVICE_CATEGORY
normalizes to the empty frame. -/
theorem C7_witness :
    "SERVICE_CATEGORY" ∉ dfW_noSC.cols ∧
    filter_and_clean_data dfW_noSC = DataFrame.emptyDF :=
  ⟨by decide, C7_missing_category_empty dfW_noSC (by decide)⟩

theorem length_finalRows (df : DataFrame) :
    (finalRows df).length = (filteredRows df).length := by
  unfold finalRows
  rw [List.length_map]
  unfold sortedRows
  by_cases hc : (availableCols df).contains "ACCEPTANCE_TIME" = true
  · rw [if_pos hc, length_sortRows]
    unfold preSortRows
    rw [List.length_map]
  · rw [if_neg hc]
    unfold preSortRows
    rw [List.length_map]

theorem filteredRows_length (df : DataFrame) (hSC : "SERVICE_CATEGORY" ∈ df.cols) :
    (filteredRows df).length
      = (df.rows.filter
          (fun r => isValidCategory (Row.get r "SERVICE_CATEGORY"))).length := by
  have hav : "SERVICE_CATEGORY" ∈ availableCols df :=
    (mem_availableCols df _).mpr ⟨by decide, hSC⟩
  unfold filteredRows
  rw [← List.countP_eq_length_filter, ← List.countP_eq_length_filter, List.countP_map,
    List.countP_eq_length_filter, List.countP_eq_length_filter]
  congr 1
  apply List.filter_congr
  intro r _
  show isValidCategory (Row.get (projectRow (availableCols df) r) "SERVICE_CATEGORY")
      = isValidCategory (Row.get r "SERVICE_CATEGORY")
  rw [get_projectRow, if_pos hav]

/-- C2: every row retained by filter_and_clean_data carries a
SERVICE_CATEGORY value that is literally one of the seven whitelist
tokens, and when the column is present the number of retained rows equals
the number of input rows whose SERVICE_CATEGORY matches the whitelist by
exact, case-sensitive comparison — all other rows (including null and
differently-cased or padded values) are dropped, not repaired. -/
theorem C2_category_whitelist (df : DataFrame) :
    (∀ r ∈ (filter_and_clean_data df).rows,
      ∃ s, s ∈ VALID_CATEGORIES ∧ Row.get r "SERVICE_CATEGORY" = Cell.str s) ∧
    ("SERVICE_CATEGORY" ∈ df.cols →
      (filter_and_clean_data df).rows.length
        = (df.rows.filter
            (fun r => isValidCategory (Row.get r "SERVICE_CATEGORY"))).length) := by
  constructor
  · intro r hr
    rcases out_rows_spec hr with ⟨s, p, hs, _, hSC, _⟩
    exact ⟨s, hs, hSC⟩
  · intro hSC
    rcases filter_and_clean_cases df with ⟨hnil, hfnil⟩ | ⟨hrows, _, _, _, _⟩
    · rw [hnil, ← filteredRows_length df hSC, hfnil]
    · rw [hrows, length_finalRows, filteredRows_length df hSC]

/-- C2 witness: on the concrete mixed batch only the exact token "HDW"
survives, and the retained count equals the exact-match count. -/
theorem C2_witness :
    (∃ s, s ∈ VALID_CATEGORIES ∧
      Row.get ((filter_and_clean_data dfW_mix).rows.headD [])
        "SERVICE_CATEGORY" = Cell.str s) ∧
    (filter_and_clean_data dfW_mix).rows.length
      = (dfW_mix.rows.filter
          (fun r => isValidCategory (Row.get r "SERVICE_CATEGORY"))).length :=
  ⟨(C2_category_whitelist dfW_mix).1 _ (by decide),
   (C2_category_whitelist dfW_mix).2 (by decide)⟩

/-- C3: every retained row has a non-null PRODUCT equal to the image of
its SERVICE_CATEGORY under the fixed total category-to-product mapping. -/
theorem C3_product_mapping (df : DataFrame) :
    ∀ r ∈ (filter_and_clean_data df).rows,
      ∃ s p, Row.get r "SERVICE_CATEGORY" = Cell.str s ∧
        categoryToProduct s = some p ∧ Row.get r "PRODUCT" = Cell.str p ∧
        Row.get r "PRODUCT" ≠ Cell.null := by
  intro r hr
  rcases out_rows_spec hr with ⟨s, p, _, hp, hSC, hP⟩
  exact ⟨s, p, hSC, hp, hP, by simp [hP]⟩

/-- C3 witness: the product derivation on the concrete mixed batch
(category "HDW" maps to "Hardware"). -/
theorem C3_witness :
    ∃ s p,
      Row.get ((filter_and_clean_data dfW_mix).rows.headD [])
        "SERVICE_CATEGORY" = Cell.str s ∧
      categoryToProduct s = some p ∧
      Row.get ((filter_and_clean_data dfW_mix).rows.headD [])
        "PRODUCT" = Cell.str p ∧
      Row.get ((filter_and_clean_data dfW_mix).rows.headD [])
        "PRODUCT" ≠ Cell.null :=
  C3_product_mapping dfW_mix _ (by decide)

/-- C6 counterexample: an empty-string NOTE_MAXIMUM value survives
normalization unchanged — the fill step replaces only null values, so an
"empty" (empty-string) value is not replaced by the sentinel, refuting the
claim as stated. -/
theorem C6_counterexample :
    "NOTE_MAXIMUM" ∈ (filter_and_clean_data dfW_empty_note).cols ∧
    Row.get ((filter_and_clean_data dfW_empty_note).rows.headD [])
      "NOTE_MAXIMUM" = Cell.str "" ∧
    Cell.str "" ≠ Cell.str NO_INFO :=
  ⟨by decide, by decide, by decide⟩

/-- C6 (amended): for each of the four free-text columns present in the
output, the fill step replaces exactly the null values with the sentinel
and leaves every non-null value (including the empty string) unchanged:
positionally, each output text cell equals the sentinel when the pre-fill
(post-sort) cell was null and equals that cell itself otherwise; hence
after normalization these fields never hold a null value — every cell is
either the original content or the sentinel. -/
theorem C6_text_fill (df : DataFrame) :
    (∀ r ∈ (filter_and_clean_data df).rows, ∀ c ∈ TEXT_COLUMNS,
      c ∈ (filter_and_clean_data df).cols → Row.get r c ≠ Cell.null) ∧
    (∀ i, i < (filter_and_clean_data df).rows.length →
      ∀ c ∈ TEXT_COLUMNS, c ∈ (filter_and_clean_data df).cols →
        Row.get ((filter_and_clean_data df).rows.getD i []) c
          = (if Row.get ((sortedRows df).getD i []) c = Cell.null
             then Cell.str NO_INFO
             else Row.get ((sortedRows df).getD i []) c)) := by
  constructor
  · intro r hr c hcT hcC
    rcases filter_and_clean_cases df with ⟨hnil, _⟩ | ⟨hrows, hcols, _, _, _⟩
    · rw [hnil] at hr
      exact absurd hr (List.not_mem_nil r)
    · rw [hrows] at hr
      rw [hcols] at hcC
      have hcP : c ≠ "PRODUCT" := by
        intro h
        rw [h] at hcT
        exact absurd hcT (by decide)
      have hcav : c ∈ availableCols df := by
        rcases List.mem_append.mp hcC with h | h
        · exact h
        · exact absurd (List.mem_singleton.mp h) hcP
      unfold finalRows at hr
      rcases List.mem_map.mp hr with ⟨r1, _, rfl⟩
      unfold fillRow
      rw [get_mapCols_mem fillCell _ _ _ _ (by decide) hcT]
      have hcon : (availableCols df ++ ["PRODUCT"]).contains c = true := by
        have hmm : c ∈ availableCols df ++ ["PRODUCT"] := List.mem_append_left _ hcav
        simp [hmm]
      rw [if_pos hcon]
      exact fillCell_ne_null _
  · intro i hi c hcT hcC
    rcases filter_and_clean_cases df with ⟨hnil, _⟩ | ⟨hrows, hcols, _, _, _⟩
    · rw [hnil] at hi
      exact absurd hi (by simp)
    · rw [hrows] at hi ⊢
      rw [hcols] at hcC
      have hcP : c ≠ "PRODUCT" := by
        intro h
        rw [h] at hcT
        exact absurd hcT (by decide)
      have hcav : c ∈ availableCols df := by
        rcases List.mem_append.mp hcC with h | h
        · exact h
        · exact absurd (List.mem_singleton.mp h) hcP
      have hcon : (availableCols df ++ ["PRODUCT"]).contains c = true := by
        have hmm : c ∈ availableCols df ++ ["PRODUCT"] := List.mem_append_left _ hcav
        simp [hmm]
      unfold finalRows at hi ⊢
      have hlen : i < (sortedRows df).length := by rwa [List.length_map] at hi
      have hmap : ((sortedRows df).map
            (fillRow (availableCols df ++ ["PRODUCT"]))).getD i []
          = fillRow (availableCols df ++ ["PRODUCT"]) ((sortedRows df).getD i []) := by
        rw [List.getD_eq_getElem?_getD, List.getD_eq_getElem?_getD, List.getElem?_map,
          (List.getElem?_eq_some_getElem_iff _ _ hlen).mpr trivial]
        rfl
      rw [hmap]
      unfold fillRow
      rw [get_mapCols_mem fillCell _ _ _ _ (by decide) hcT, if_pos hcon]
      rfl

/-- C6 witness: on the concrete empty-string batch the NOTE_MAXIMUM cell
stays non-null, and on the concrete mixed batch the retained row's null
NOTE_MAXIMUM is replaced according to the fill equation. -/
theorem C6_witness :
    (Row.get ((filter_and_clean_data dfW_empty_note).rows.headD [])
      "NOTE_MAXIMUM" ≠ Cell.null) ∧
    (Row.get ((filter_and_clean_data dfW_mix).rows.getD 0 []) "NOTE_MAXIMUM"
      = (if Row.get ((sortedRows dfW_mix).getD 0 []) "NOTE_MAXIMUM" = Cell.null
         then Cell.str NO_INFO
         else Row.get ((sortedRows dfW_mix).getD 0 []) "NOTE_MAXIMUM")) :=
  ⟨(C6_text_fill dfW_empty_note).1 _ (by decide) "NOTE_MAXIMUM" (by decide) (by decide),
   (C6_text_fill dfW_mix).2 0 (by decide) "NOTE_MAXIMUM" (by decide) (by decide)⟩

/-! ### Order properties of the pipeline output -/

/-- C9 (implicit): nulls-last ordering — when the ACCEPTANCE_TIME column
is present, the normalized batch is a block of rows with a parsed time
followed by a block of rows whose time is null. -/
theorem C9_nulls_last (df : DataFrame) (h : "ACCEPTANCE_TIME" ∈ df.cols) :
    ∃ ds ns, (filter_and_clean_data df).rows = ds ++ ns ∧
      (∀ r ∈ ds, rowKey r ≠ none) ∧ (∀ r ∈ ns, rowKey r = none) := by
  rcases filter_and_clean_cases df with ⟨hnil, _⟩ | ⟨hrows, _, _, _, _⟩
  · exact ⟨[], [], by simp [hnil], by simp, by simp⟩
  · have hav : "ACCEPTANCE_TIME" ∈ availableCols df :=
      (mem_availableCols df _).mpr ⟨by decide, h⟩
    have hcon : (availableCols df).contains "ACCEPTANCE_TIME" = true := by simp [hav]
    refine ⟨(insertionSortByKey ((preSortRows df).filter
              (fun r => (rowKey r).isSome))).map
                (fillRow (availableCols df ++ ["PRODUCT"])),
            ((preSortRows df).filter (fun r => (rowKey r).isNone)).map
              (fillRow (availableCols df ++ ["PRODUCT"])), ?_, ?_, ?_⟩
    · rw [hrows]
      unfold finalRows sortedRows
      rw [if_pos hcon]
      unfold sortRows
      rw [List.map_append]
    · intro r hr
      rcases List.mem_map.mp hr with ⟨r1, hr1, rfl⟩
      rw [rowKey_fillRow]
      have hs : (rowKey r1).isSome :=
        (List.mem_filter.mp (mem_insertionSortByKey hr1)).2
      intro hn
      rw [hn] at hs
      cases hs
    · intro r hr
      rcases List.mem_map.mp hr with ⟨r1, hr1, rfl⟩
      rw [rowKey_fillRow]
      exact Option.isNone_iff_eq_none.mp (List.mem_filter.mp hr1).2

/-! ### Summary claims -/

/-- C8: date_range_days equals the integer day span between the earliest
and latest non-null ACCEPTANCE_TIME, and 0 whenever the batch is empty or
fewer than two rows have a non-null time (the hypothesis restricts the
column to timestamp-or-null cells, the shape normalization produces). -/
theorem C8_date_range (df : DataFrame)
    (_hcells : ∀ r ∈ df.rows, isTimeOrNull (Row.get r "ACCEPTANCE_TIME") = true) :
    (get_data_summary df).date_range_days = daySpanSpec (validTimes df) := by
  by_cases he : df.isEmpty = true
  · have hvt : validTimes df = [] := by
      unfold validTimes
      rcases (by simpa [DataFrame.isEmpty] using he : df.rows = [] ∨ df.cols = [])
        with h' | h'
      · by_cases hc : df.cols.contains "ACCEPTANCE_TIME" = true
        · rw [if_pos hc, h']
          rfl
        · rw [if_neg hc]
      · rw [if_neg (by rw [h']; simp)]
    unfold get_data_summary
    rw [if_pos he, hvt]
    rfl
  · unfold get_data_summary
    rw [if_neg he]
    show (match validTimes df with
          | [] => (0 : Int)
          | t :: ts => (listMax t ts - listMin t ts) / 1440)
        = daySpanSpec (validTimes df)
    cases hv : validTimes df with
    | nil => rfl
    | cons t ts =>
      cases ts with
      | nil => simp [daySpanSpec, listMax, listMin]
      | cons u us => rfl

/-- C8 witness: the day-span equality on a concrete dated batch. -/
theorem C8_witness :
    (∀ r ∈ dfW_dates.rows, isTimeOrNull (Row.get r "ACCEPTANCE_TIME") = true) ∧
    (get_data_summary dfW_dates).date_range_days = daySpanSpec (validTimes dfW_dates) :=
  ⟨by decide, C8_date_range dfW_dates (by decide)⟩

theorem sum_valueCounts (cells : List Cell) :
    ((valueCounts cells).map Prod.snd).sum
      = (cells.filter (fun c => c ≠ Cell.null)).length := by
  unfold valueCounts
  rw [List.map_map]
  have hcomp : (Prod.snd ∘ fun v =>
      (v, (cells.filter (fun c => c ≠ Cell.null)).count v))
      = fun v => (cells.filter (fun c => c ≠ Cell.null)).count v := rfl
  rw [hcomp]
  exact List.sum_map_count_dedup_eq_length _

/-- C10 (implicit): on every normalized batch, the category tallies and
the product tallies each sum to total_tickets — no retained row is missing
from either count, because SERVICE_CATEGORY and PRODUCT are never null in
retained rows. -/
theorem C10_counts_sum (df : DataFrame) :
    ((get_data_summary (filter_and_clean_data df)).category_counts.map Prod.snd).sum
      = (get_data_summary (filter_and_clean_data df)).total_tickets ∧
    ((get_data_summary (filter_and_clean_data df)).product_counts.map Prod.snd).sum
      = (get_data_summary (filter_and_clean_data df)).total_tickets := by
  rcases filter_and_clean_cases df with ⟨hnil, _⟩ | ⟨hrows, hcols, _, hSCav, hfne⟩
  · have hemp : (filter_and_clean_data df).isEmpty = true := by
      simp [DataFrame.isEmpty, hnil]
    unfold get_data_summary
    rw [if_pos hemp]
    exact ⟨rfl, rfl⟩
  · have hfr : finalRows df ≠ [] := by
      intro hfr0
      apply hfne
      have hlen := length_finalRows df
      rw [hfr0] at hlen
      exact List.length_eq_zero.mp hlen.symm
    have happ : availableCols df ++ ["PRODUCT"] ≠ [] := by simp
    have hemp : (filter_and_clean_data df).isEmpty = false := by
      simp [DataFrame.isEmpty, hrows, hcols, hfr, happ]
    have hSCc : (filter_and_clean_data df).cols.contains "SERVICE_CATEGORY" = true := by
      rw [hcols]
      simp [List.mem_append_left _ hSCav]
    have hPc : (filter_and_clean_data df).cols.contains "PRODUCT" = true := by
      rw [hcols]
      simp
    unfold get_data_summary
    rw [if_neg (by rw [hemp]; exact Bool.false_ne_true), if_pos hSCc, if_pos hPc]
    constructor
    · show ((valueCounts ((filter_and_clean_data df).rows.map
          (fun r => Row.get r "SERVICE_CATEGORY"))).map Prod.snd).sum
        = (filter_and_clean_data df).rows.length
      rw [sum_valueCounts]
      rw [List.filter_eq_self.mpr ?_, List.length_map]
      intro x hx
      rcases List.mem_map.mp hx with ⟨r, hr, rfl⟩
      rcases out_rows_spec hr with ⟨s, p, _, _, hSC, _⟩
      simp [hSC]
    · show ((valueCounts ((filter_and_clean_data df).rows.map
          (fun r => Row.get r "PRODUCT"))).map Prod.snd).sum
        = (filter_and_clean_data df).rows.length
      rw [sum_valueCounts]
      rw [List.filter_eq_self.mpr ?_, List.length_map]
      intro x hx
      rcases List.mem_map.mp hx with ⟨r, hr, rfl⟩
      rcases out_rows_spec hr with ⟨s, p, _, _, _, hP⟩
      simp [hP]

/-- C9 witness: the nulls-last split on the concrete sortable batch. -/
theorem C9_witness :
    ∃ ds ns, (filter_and_clean_data dfW_sort).rows = ds ++ ns ∧
      (∀ r ∈ ds, rowKey r ≠ none) ∧ (∀ r ∈ ns, rowKey r = none) :=
  C9_nulls_last dfW_sort (by decide)

end TicketPipeline
